import Mathlib

/-!
Verification of the LDG AT-200PC control program (at200pc.py).

The development shallowly embeds the device-communication core of the
program: the 4-state receive framing machine of `Application.Read`, the
parameter store (`param1`/`param2`, `is_standby`, `tune_status`) and the
frame-application logic, the Running-phase command selection of
`Application.main`, and the metric derivations of `Application.NewData`.

Conventions of the embedding:
- bytes are `Nat`; the two parameter arrays become functions
  `Nat → Option Nat` (`none` models Python `None`);
- `is_standby` is modelled as `Option Bool` because the Python attribute
  does not exist until a frame with index 13 or 14 arrives (reading it
  earlier raises `AttributeError`);
- Python code that can raise an exception is modelled in `Except String`,
  with the error string naming the exception;
- float arithmetic is modelled exactly: rationals for power/frequency,
  reals (with `Real.sqrt`) for the SWR formula.
-/

namespace AT200PC

/-- Receiver state of `Application.Read`: `rx` mirrors `rx_state` (0 = seek
sync, 1/2/3 = positions inside a frame), `b1`/`b2` mirror `rx_byte1` and
`rx_byte2`.  In the source the byte attributes do not exist until first
written; they are only read after being written, so arbitrary initial
values (we use 0) are unobservable. -/
structure DecSt where
  rx : Nat
  b1 : Nat
  b2 : Nat
  deriving DecidableEq

/-- Initial receiver state (`self.rx_state = 0` in `Application.__init__`). -/
def decInit : DecSt := ⟨0, 0, 0⟩

/-- One byte of the framing state machine in `Application.Read`
(lines 472-484): in state 0 discard bytes until one equals 165, then
collect three bytes and emit the triple `(byte1, byte2, byte3)`. -/
def decStep (d : DecSt) (ch : Nat) : DecSt × Option (Nat × Nat × Nat) :=
  if d.rx = 0 then
    if ch = 165 then (⟨1, d.b1, d.b2⟩, none) else (d, none)
  else if d.rx = 1 then (⟨2, ch, d.b2⟩, none)
  else if d.rx = 2 then (⟨3, d.b1, ch⟩, none)
  else (⟨0, d.b1, d.b2⟩, some (d.b1, d.b2, ch))

/-- Feed a byte list through the framing machine, returning the final
receiver state and the decoded triples in order (the `for ch in chars`
loop of `Application.Read`). -/
def decFeed : DecSt → List Nat → DecSt × List (Nat × Nat × Nat)
  | d, [] => (d, [])
  | d, ch :: rest =>
    let s := decStep d ch
    let r := decFeed s.1 rest
    (r.1, s.2.toList ++ r.2)

/-- Device-state store of `Application`: `slotA`/`slotB` mirror
`self.param1`/`self.param2`, `isStandby` mirrors the late-created
`self.is_standby` attribute, `tuneStatus` mirrors `self.tune_status`. -/
@[ext]
structure DeviceState where
  slotA : Nat → Option Nat
  slotB : Nat → Option Nat
  isStandby : Option Bool
  tuneStatus : String

/-- State at program start: both parameter arrays all `None`
(`[None] * 20`), `is_standby` not yet created, `tune_status = 'None'`. -/
def initialState : DeviceState :=
  ⟨fun _ => none, fun _ => none, none, "None"⟩

/-- Tune-failure text chosen from `byte2` when a frame with index 10
arrives (lines 495-502 of `Application.Read`). -/
def tuneFailText (a : Nat) : String :=
  if a = 0 then "No RF"
  else if a = 1 then "Lost RF"
  else if a = 2 then "High SWR"
  else "Error"

/-- Apply one decoded frame `(p, a, b)` to the device state: the body of
the `rx_state == 3` arm of `Application.Read` (lines 489-509).  Frames
with `p > 19` are dropped (`continue`); index 9/10 set the tune status and
clear `param2[6]`; index 13/14 set the standby flag; finally
`param1[p] = a` and `param2[p] = b`. -/
def applyFrame (s : DeviceState) (p a b : Nat) : DeviceState :=
  if 19 < p then s
  else
    let s1 :=
      if p = 9 then
        { s with tuneStatus := "OK", slotB := Function.update s.slotB 6 none }
      else if p = 10 then
        { s with tuneStatus := tuneFailText a,
                 slotB := Function.update s.slotB 6 none }
      else if p = 13 then { s with isStandby := some true }
      else if p = 14 then { s with isStandby := some false }
      else s
    { s1 with slotA := Function.update s1.slotA p (some a),
              slotB := Function.update s1.slotB p (some b) }

/-- Uncurried `applyFrame`, convenient for folding decoded triples. -/
def applyTriple (s : DeviceState) (t : Nat × Nat × Nat) : DeviceState :=
  applyFrame s t.1 t.2.1 t.2.2

/-- `Application.OnButtonStandby`: returns the command byte written
(44 when the button reads pressed, else 45) and the state change
`self.param2[6] = None`. -/
def OnButtonStandby (pressed : Bool) (s : DeviceState) : Nat × DeviceState :=
  ((if pressed then 44 else 45),
   { s with slotB := Function.update s.slotB 6 none })

/-- `Application.OnButtonSwr`: command byte for threshold button `k`
(`self.Write(chr(btn.GetIndex() + 50))`). -/
def OnButtonSwr (k : Nat) : Nat := k + 50

/-- The SWR threshold button labels, line 231 of the source:
`(1.1, 1.3, 1.5, 1.7, 2.0, 2.5, 3.0)`. -/
def swrThresholds : List ℚ := [1.1, 1.3, 1.5, 1.7, 2.0, 2.5, 3.0]

/-- Command selection of the Running-phase loop body in `Application.main`
(lines 399-406).  `elapsed` abstracts the one-second throttle
`time.time() - time0 >= 1.0`; `autotune` is `self.autotune` (an int: 0/1
from `OnButtonAuto`, or the value captured from `param1[17]` at the end of
the handshake).  Reading `self.is_standby` before any 13/14 frame raises
`AttributeError`; `chr` of a negative number raises `ValueError`. -/
def runningCommand (elapsed : Bool) (autotune : Nat) (s : DeviceState) :
    Except String (Option Nat) :=
  if s.slotB 6 = none then
    Except.ok (if elapsed then some 40 else none)
  else
    match s.isStandby with
    | none => Except.error "AttributeError: is_standby"
    | some stby =>
      if stby ∧ s.slotA 17 ≠ some 0 then Except.ok (some 59)
      else if ¬ stby ∧ some autotune ≠ s.slotA 17 then
        if autotune ≤ 59 then Except.ok (some (59 - autotune))
        else Except.error "ValueError: chr arg out of range"
      else Except.ok none

/-- Read `self.param1[i]` for use in arithmetic or indexing: Python raises
`TypeError` when the entry is still `None`. -/
def reqA (s : DeviceState) (i : Nat) : Except String Nat :=
  match s.slotA i with
  | some v => Except.ok v
  | none => Except.error "TypeError: param1 entry is None"

/-- Read `self.param2[i]` for use in arithmetic: Python raises `TypeError`
when the entry is still `None`. -/
def reqB (s : DeviceState) (i : Nat) : Except String Nat :=
  match s.slotB i with
  | some v => Except.ok v
  | none => Except.error "TypeError: param2 entry is None"

/-- Read `self.is_standby` (lines 403 and 545): the attribute exists only
after a frame with index 13 or 14 has been applied. -/
def reqStandby (s : DeviceState) : Except String Bool :=
  match s.isStandby with
  | some v => Except.ok v
  | none => Except.error "AttributeError: is_standby"

/-- Power derivation `(self.param1[i] * 256 + self.param2[i]) / 100.0`,
used with `i = 5` (forward, line 515) and `i = 18` (reflected, line 522). -/
def pairWatts (s : DeviceState) (i : Nat) : Except String ℚ := do
  let a ← reqA s i
  let b ← reqB s i
  Except.ok (((a : ℚ) * 256 + (b : ℚ)) / 100)

/-- SWR value from the code `param2[6]` (lines 531-534):
`rho = sqrt(code / 256.0)`, `swr = (1 + rho) / (1 - rho)`, then
`if swr > 99.9: swr = 99.9`. -/
noncomputable def swrOfCode (c : Nat) : ℝ :=
  let rho := Real.sqrt ((c : ℝ) / 256)
  let v := (1 + rho) / (1 - rho)
  if 99.9 < v then 99.9 else v

/-- The SWR display decision (lines 529-543): a value is computed exactly
when the forward power is at least 2.0 W and `param2[6]` is not `None`;
otherwise the display shows no value (`none` = the bare `SWR` label). -/
noncomputable def deriveSWR (powerW : ℚ) (code : Option Nat) : Option ℝ :=
  match code with
  | some c => if 2 ≤ powerW then some (swrOfCode c) else none
  | none => none

/-- Frequency derivation (lines 576-577):
`freq_code = a[7] * 256 + b[7]; freq_khz = 20480000.0 / freq_code`.
The source has no zero guard, so `freq_code = 0` raises
`ZeroDivisionError`. -/
def deriveFreq (s : DeviceState) : Except String ℚ := do
  let a ← reqA s 7
  let b ← reqB s 7
  let fc : Nat := a * 256 + b
  if fc = 0 then Except.error "ZeroDivisionError"
  else Except.ok (20480000 / (fc : ℚ))

/-- Threshold shown by `self.swrButns.DisplayIndex(self.param1[16])`
(line 566): `button_list[k]` raises `TypeError` on `None` and `IndexError`
when `k` exceeds the last of the 7 buttons. -/
def thresholdFor (s : DeviceState) : Except String ℚ := do
  let k ← reqA s 16
  match swrThresholds.get? k with
  | some v => Except.ok v
  | none => Except.error "IndexError: list index out of range"

/-- Python truthiness of a parameter entry used in a bare `if`:
`None` and `0` are falsy, any other byte is truthy. -/
def truthy (o : Option Nat) : Bool :=
  match o with
  | some v => v != 0
  | none => false

/-- Everything `Application.NewData` paints on the screen. -/
structure Display where
  forwardW : ℚ
  reflectedW : ℚ
  swr : Option ℝ
  standby : Bool
  antenna2 : Bool
  autotuneOn : Bool
  threshold : ℚ
  impedance : String
  freqKHz : ℚ
  induc : Nat
  capac : Nat
  tune : String

/-- `Application.NewData` (lines 513-580), in source statement order:
forward power, reflected power, SWR display, standby button, antenna
button, auto-tune button, threshold display, and the status line (Z label,
frequency, inductance, capacitance, tune status).  Steps that raise in
Python are the `Except` failures of the helpers above. -/
noncomputable def NewData (s : DeviceState) : Except String Display := do
  let power ← pairWatts s 5
  let refl ← pairWatts s 18
  let swr := deriveSWR power (s.slotB 6)
  let stby ← reqStandby s
  let ant := truthy (s.slotA 4)
  let auto := truthy (s.slotA 17)
  let thr ← thresholdFor s
  let hilow := if truthy (s.slotA 3) then "Low Z" else "High Z"
  let freq ← deriveFreq s
  let induc ← reqA s 1
  let capac ← reqA s 2
  Except.ok ⟨power, refl, swr, stby, ant, auto, thr, hilow, freq, induc,
             capac, s.tuneStatus⟩

/-- Whether an `Except` computation finished without raising. -/
def exceptOk {α : Type} (e : Except String α) : Bool :=
  match e with
  | Except.ok _ => true
  | Except.error _ => false

deriving instance DecidableEq for Except

/-- A state reached after frames 14 (active), 17 (auto-tune flag 0) and 6
(relay settings): used to exercise the Running-phase reconciliation with
standby off. -/
def sC1 : DeviceState :=
  List.foldl applyTriple initialState [(14, 0, 0), (17, 0, 0), (6, 1, 2)]

/-- Like `sC1` but without the index-6 frame, so `param2[6]` is `None`. -/
def sC1b : DeviceState :=
  List.foldl applyTriple initialState [(14, 0, 0), (17, 0, 0)]

/-- A state reached after frames 13 (standby), 17 (auto-tune flag 1) and 6
(relay settings): standby active while the device reports auto-tune on. -/
def sC2 : DeviceState :=
  List.foldl applyTriple initialState [(13, 0, 0), (17, 1, 0), (6, 1, 2)]

/-- Like `sC2` but without the index-6 frame. -/
def sC2b : DeviceState :=
  List.foldl applyTriple initialState [(13, 0, 0), (17, 1, 0)]

/-- A device state in which `NewData` succeeds: frames 13, 1, 2, 5, 7, 16
and 18 have arrived.  Index 4 (antenna) and index 6 (relay settings) are
still unset, and forward power is (0*256+100)/100 = 1 W. -/
def sFull : DeviceState :=
  List.foldl applyTriple initialState
    [(13, 0, 0), (1, 5, 0), (2, 7, 0), (5, 0, 100), (7, 1, 0), (16, 0, 0),
     (18, 0, 50)]

/-- `sFull` after an index-6 frame, so `param2[6]` holds a value. -/
def s6state : DeviceState := applyTriple sFull (6, 1, 2)

/-- `sFull` after an index-7 frame reporting the all-zero frequency code. -/
def sFreqZero : DeviceState := applyTriple sFull (7, 0, 0)

/-- A state whose index-6 pair is populated, for exhibiting the partial
clear of `param2[6]` performed by tune frames. -/
def s5state : DeviceState := applyFrame initialState 6 1 2

/-- The pairing property claimed for `DeviceState` writes: after applying
frame `(p, a, b)`, the slot pair at `j` is either untouched or holds
exactly the frame's two values. -/
def writesPaired (s : DeviceState) (p a b j : Nat) : Prop :=
  ((applyFrame s p a b).slotA j = s.slotA j ∧
   (applyFrame s p a b).slotB j = s.slotB j) ∨
  ((applyFrame s p a b).slotA j = some a ∧
   (applyFrame s p a b).slotB j = some b)

/-- Indices above 19 never hold a stored value. -/
def validIdx (s : DeviceState) : Prop :=
  ∀ j, 19 < j → s.slotA j = none ∧ s.slotB j = none

/-- State with the threshold index parameter set to 2. -/
def s16state : DeviceState := applyFrame initialState 16 2 0

/-! ## Helper lemmas -/

/-- Binding a successful `Except` computation applies the continuation. -/
theorem ebind_ok {α β : Type} (a : α) (f : α → Except String β) :
    (Except.ok a : Except String α) >>= f = f a := rfl

/-- Binding a failed `Except` computation propagates the failure. -/
theorem ebind_error {α β : Type} (e : String) (f : α → Except String β) :
    (Except.error e : Except String α) >>= f = Except.error e := rfl

/-- Inversion for a successful `Except` bind. -/
theorem exceptBind_ok {α β : Type} {x : Except String α}
    {f : α → Except String β} {b : β}
    (h : x >>= f = Except.ok b) :
    ∃ a, x = Except.ok a ∧ f a = Except.ok b := by
  cases x with
  | ok a => exact ⟨a, rfl, h⟩
  | error e => rw [ebind_error] at h; exact absurd h (by simp)

/-- `exceptOk` holds exactly on successful computations. -/
theorem exceptOk_iff {α : Type} (e : Except String α) :
    exceptOk e = true ↔ ∃ x, e = Except.ok x := by
  cases e <;> simp [exceptOk]

/-- A successful `param1` read means the entry was populated. -/
theorem reqA_ok {s : DeviceState} {i v : Nat} (h : reqA s i = Except.ok v) :
    s.slotA i = some v := by
  cases hs : s.slotA i with
  | none => simp [reqA, hs] at h
  | some w => simp [reqA, hs] at h; simp [h]

/-- A successful `param2` read means the entry was populated. -/
theorem reqB_ok {s : DeviceState} {i v : Nat} (h : reqB s i = Except.ok v) :
    s.slotB i = some v := by
  cases hs : s.slotB i with
  | none => simp [reqB, hs] at h
  | some w => simp [reqB, hs] at h; simp [h]

/-- A successful `is_standby` read means a 13/14 frame had arrived. -/
theorem reqStandby_ok {s : DeviceState} {v : Bool}
    (h : reqStandby s = Except.ok v) : s.isStandby = some v := by
  cases hs : s.isStandby with
  | none => simp [reqStandby, hs] at h
  | some w => simp [reqStandby, hs] at h; simp [h]

/-- A successful power derivation needs both slots of the pair. -/
theorem pairWatts_ok {s : DeviceState} {i : Nat} {q : ℚ}
    (h : pairWatts s i = Except.ok q) :
    s.slotA i ≠ none ∧ s.slotB i ≠ none := by
  unfold pairWatts at h
  obtain ⟨a, ha, h⟩ := exceptBind_ok h
  obtain ⟨b, hb, h⟩ := exceptBind_ok h
  exact ⟨by simp [reqA_ok ha], by simp [reqB_ok hb]⟩

/-- A successful frequency derivation needs both slots of pair 7. -/
theorem deriveFreq_ok {s : DeviceState} {q : ℚ}
    (h : deriveFreq s = Except.ok q) :
    s.slotA 7 ≠ none ∧ s.slotB 7 ≠ none := by
  unfold deriveFreq at h
  obtain ⟨a, ha, h⟩ := exceptBind_ok h
  obtain ⟨b, hb, h⟩ := exceptBind_ok h
  exact ⟨by simp [reqA_ok ha], by simp [reqB_ok hb]⟩

/-- A successful threshold display needs `param1[16]` set to at most 6. -/
theorem thresholdFor_ok {s : DeviceState} {q : ℚ}
    (h : thresholdFor s = Except.ok q) :
    ∃ k, s.slotA 16 = some k ∧ k ≤ 6 := by
  unfold thresholdFor at h
  obtain ⟨k, hk, h⟩ := exceptBind_ok h
  refine ⟨k, reqA_ok hk, ?_⟩
  cases hg : swrThresholds.get? k with
  | none => rw [hg] at h; exact absurd h (by simp)
  | some w =>
    obtain ⟨hlt, -⟩ := List.get?_eq_some.mp hg
    simpa [swrThresholds] using
      Nat.lt_succ_iff.mp (by simpa [swrThresholds] using hlt)

/-- Bytes that are not the sync value are discarded unchanged while the
receiver is seeking sync. -/
theorem decSkip (noise : List Nat) (x y : Nat) (rest : List Nat)
    (h : 165 ∉ noise) :
    decFeed ⟨0, x, y⟩ (noise ++ rest) = decFeed ⟨0, x, y⟩ rest := by
  induction noise with
  | nil => rfl
  | cons n ns ih =>
    have hn : n ≠ 165 := fun e => h (by simp [e])
    have hns : 165 ∉ ns := fun e => h (by simp [e])
    show decFeed ⟨0, x, y⟩ (n :: (ns ++ rest)) = _
    simp only [decFeed, decStep, hn]
    simpa using ih hns

/-- From seek-sync, a sync byte and three data bytes produce exactly one
triple and return the receiver to seek-sync. -/
theorem decFrame (x y i a b : Nat) (rest : List Nat) :
    decFeed ⟨0, x, y⟩ (165 :: i :: a :: b :: rest) =
      ((decFeed ⟨0, i, a⟩ rest).1, (i, a, b) :: (decFeed ⟨0, i, a⟩ rest).2) := by
  simp [decFeed, decStep]

/-- For in-range frames, `slotA` is updated exactly at the frame index. -/
theorem applyFrame_slotA (s : DeviceState) (p a b : Nat) (h : ¬ 19 < p) :
    (applyFrame s p a b).slotA = Function.update s.slotA p (some a) := by
  simp only [applyFrame, if_neg h]
  split_ifs <;> rfl

/-- For in-range frames, `slotB` is updated at the frame index, after the
index-6 invalidation when the frame reports a tune event. -/
theorem applyFrame_slotB (s : DeviceState) (p a b : Nat) (h : ¬ 19 < p) :
    (applyFrame s p a b).slotB =
      Function.update
        (if p = 9 ∨ p = 10 then Function.update s.slotB 6 none else s.slotB)
        p (some b) := by
  simp only [applyFrame, if_neg h]
  split_ifs <;> simp_all

/-- For in-range frames, the standby flag changes only on indices 13/14. -/
theorem applyFrame_isStandby (s : DeviceState) (p a b : Nat) (h : ¬ 19 < p) :
    (applyFrame s p a b).isStandby =
      if p = 13 then some true
      else if p = 14 then some false
      else s.isStandby := by
  simp only [applyFrame, if_neg h]
  split_ifs <;> simp_all

/-- For in-range frames, the tune status changes only on indices 9/10. -/
theorem applyFrame_tuneStatus (s : DeviceState) (p a b : Nat) (h : ¬ 19 < p) :
    (applyFrame s p a b).tuneStatus =
      if p = 9 then "OK"
      else if p = 10 then tuneFailText a
      else s.tuneStatus := by
  simp only [applyFrame, if_neg h]
  split_ifs <;> simp_all

/-! ## Claim theorems -/

/-- Claim C1, counterexample to the claim as stated.  The claim asserts
that, under the assignment 58 = auto-tune disable / 59 = auto-tune enable,
the byte `59 - desiredAutotune` sent by the Running loop is the enable
command exactly when `desiredAutotune` is true.  In state `sC1` (standby
off, device auto-tune flag 0, relay settings present) with desired
auto-tune 1 (true), the program sends byte 58, not the claimed enable code
59; moreover, when `param2[6]` is unset (`sC1b`) the tick sends the
full-update request 40 instead of any auto-tune command. -/
theorem c1_counterexample :
    runningCommand true 1 sC1 = Except.ok (some 58) ∧ (58 : Nat) ≠ 59 ∧
    runningCommand true 1 sC1b = Except.ok (some 40) := by decide

/-- Claim C1, amended: in the Running phase, when `param2[6]` is set,
standby is not active and the desired auto-tune value (0 or 1) differs
from the device-reported flag `param1[17]`, the program sends the byte
`59 - desiredAutotune`; under the source's own code assignment (59 =
auto-tune OFF per the comment on line 404, hence 58 = auto-tune ON) that
byte is the enable command exactly when `desiredAutotune` is 1 and the
disable command exactly when it is 0. -/
theorem c1_autotune_command_selection :
    ∀ (el : Bool) (auto : Nat) (s : DeviceState), auto ≤ 1 →
    s.slotB 6 ≠ none → s.isStandby = some false → some auto ≠ s.slotA 17 →
    runningCommand el auto s = Except.ok (some (59 - auto)) ∧
    (59 - auto = 58 ↔ auto = 1) ∧ (59 - auto = 59 ↔ auto = 0) := by
  intro el auto s h1 h6 hst hne
  have h59 : auto ≤ 59 := le_trans h1 (by norm_num)
  refine ⟨?_, by omega, by omega⟩
  simp only [runningCommand, if_neg h6, hst]
  simp [hne, h59]

/-- Claim C1, witness: the amended theorem applied at desired auto-tune 1
in state `sC1`. -/
theorem c1_autotune_command_selection_witness :
    runningCommand true 1 sC1 = Except.ok (some (59 - 1)) :=
  (c1_autotune_command_selection true 1 sC1 (by decide) (by decide)
    (by decide) (by decide)).1

/-- Claim C2, counterexample to the claim as stated.  The claim asserts
that with standby active and the device auto-tune flag nonzero the next
tick emits code 58 as the disable command.  In state `sC2` (standby on,
`param1[17] = 1`, relay settings present) the program emits code 59, and
when `param2[6]` is unset (`sC2b`) it emits the full-update request 40
instead. -/
theorem c2_counterexample :
    runningCommand true 0 sC2 = Except.ok (some 59) ∧
    (some (59 : Nat)) ≠ some 58 ∧
    runningCommand true 0 sC2b = Except.ok (some 40) := by decide

/-- Claim C2, amended: in the Running phase, whenever `param2[6]` is set,
standby is active and the device-reported auto-tune flag `param1[17]` is
nonzero, the next tick emits the auto-tune-disable command, which in this
program is code 59 (source comment on line 404: "Set autotune OFF"),
regardless of the desired auto-tune value. -/
theorem c2_standby_forces_autotune_off :
    ∀ (el : Bool) (auto : Nat) (s : DeviceState) (v : Nat),
    s.slotB 6 ≠ none → s.isStandby = some true → s.slotA 17 = some v →
    v ≠ 0 → runningCommand el auto s = Except.ok (some 59) := by
  intro el auto s v h6 hst h17 hv
  have h17ne : s.slotA 17 ≠ some 0 := by rw [h17]; simp [hv]
  simp only [runningCommand, if_neg h6, hst]
  simp [h17ne]

/-- Claim C2, witness: the amended theorem applied at state `sC2` with
desired auto-tune 0, showing the disable command is sent regardless of the
operator's intent. -/
theorem c2_standby_forces_autotune_off_witness :
    runningCommand true 0 sC2 = Except.ok (some 59) :=
  c2_standby_forces_autotune_off true 0 sC2 1 (by decide) (by decide)
    (by decide) (by decide)

/-- Claim C3: the code derives `20480000 / freqCode` when the frequency
code `param1[7]*256 + param2[7]` is nonzero (80000 kHz for code 256 in
`sFull`), but on the all-zero frequency code of `sFreqZero` it raises
`ZeroDivisionError` instead of reporting the frequency unavailable, as the
claim requires. -/
theorem c3_freq_zero_crashes :
    deriveFreq sFreqZero = Except.error "ZeroDivisionError" ∧
    deriveFreq sFull = Except.ok 80000 := by
  constructor
  · decide
  · have h7a : sFull.slotA 7 = some 1 := by decide
    have h7b : sFull.slotB 7 = some 0 := by decide
    simp only [deriveFreq, reqA, reqB, h7a, h7b, ebind_ok]
    norm_num

/-- Claim C4, counterexample to the claim as stated: prepending the single
noise byte 165 (the sync value) to the well-formed frame
`[165, 1, 2, 3]` changes the decoded triple from `(1, 2, 3)` to
`(165, 1, 2)`, so arbitrary noise can corrupt the frame that follows. -/
theorem c4_counterexample :
    (decFeed decInit ([165] ++ [165, 1, 2, 3])).2 = [(165, 1, 2)] ∧
    (decFeed decInit [165, 1, 2, 3]).2 = [(1, 2, 3)] ∧
    ((165, 1, 2) : Nat × Nat × Nat) ≠ (1, 2, 3) := by decide

/-- Claim C4, amended: from the seek-sync state, noise bytes none of which
equal the sync value 165 are discarded without affecting decoding: the
decoder's output on `noise ++ input` equals its output on `input`; a sync
byte followed by three bytes emits exactly that triple and returns to
seek-sync; and input without any sync byte emits nothing. -/
theorem c4_decoder_framing :
    ∀ (noise : List Nat), 165 ∉ noise → ∀ (x y i a b : Nat) (rest : List Nat),
    decFeed ⟨0, x, y⟩ (noise ++ rest) = decFeed ⟨0, x, y⟩ rest ∧
    (decFeed ⟨0, x, y⟩ (noise ++ 165 :: i :: a :: b :: rest)).2 =
      (i, a, b) :: (decFeed ⟨0, i, a⟩ rest).2 ∧
    (decFeed ⟨0, x, y⟩ noise).2 = [] := by
  intro noise hn x y i a b rest
  refine ⟨decSkip noise x y rest hn, ?_, ?_⟩
  · rw [decSkip noise x y _ hn, decFrame]
  · have h2 := decSkip noise x y [] hn
    rw [List.append_nil] at h2
    rw [h2]
    rfl

/-- Claim C4, witness: the amended theorem applied to the sync-free noise
`[7, 200, 164]` ahead of the frame `[165, 9, 1, 2]`. -/
theorem c4_decoder_framing_witness :
    decFeed ⟨0, 0, 0⟩ ([7, 200, 164] ++ [165, 9, 1, 2]) =
      decFeed ⟨0, 0, 0⟩ [165, 9, 1, 2] ∧
    (decFeed ⟨0, 0, 0⟩ ([7, 200, 164] ++ 165 :: 9 :: 1 :: 2 :: [165, 9, 1, 2])).2 =
      (9, 1, 2) :: (decFeed ⟨0, 9, 1⟩ [165, 9, 1, 2]).2 ∧
    (decFeed ⟨0, 0, 0⟩ [7, 200, 164]).2 = [] :=
  c4_decoder_framing [7, 200, 164] (by decide) 0 0 9 1 2 [165, 9, 1, 2]

/-- Claim C5, counterexample to the claim as stated: in state `s5state`
the pair at index 6 holds `(some 1, some 2)`; applying the tune-pass frame
`(9, 0, 0)` clears `param2[6]` to `None` while leaving `param1[6]`
untouched — a partial write — and `OnButtonStandby` performs the same
partial clear of `param2[6]`. -/
theorem c5_counterexample :
    ¬ writesPaired s5state 9 0 0 6 ∧
    s5state.slotB 6 = some 2 ∧
    (applyFrame s5state 9 0 0).slotA 6 = s5state.slotA 6 ∧
    (applyFrame s5state 9 0 0).slotB 6 = none ∧
    (OnButtonStandby true s5state).2.slotB 6 = none := by
  refine ⟨?_, by decide, by decide, by decide, by decide⟩
  simp only [writesPaired]
  decide

/-- Claim C5, amended: applying a frame either leaves a slot pair
untouched or writes both slots from the frame at the frame's own index,
with one exception: frames with index 9 or 10 additionally clear
`param2[6]` to unset without touching `param1[6]`.  The standby button
likewise clears only `param2[6]` (and touches no other slot) while
emitting command 44 or 45. -/
theorem c5_paired_writes_except_relay_clear :
    (∀ s p a b j,
      writesPaired s p a b j ∨
      (j = 6 ∧ (p = 9 ∨ p = 10) ∧ (applyFrame s p a b).slotA 6 = s.slotA 6 ∧
       (applyFrame s p a b).slotB 6 = none)) ∧
    (∀ (st : Bool) (s : DeviceState) (j : Nat),
      (OnButtonStandby st s).2.slotA j = s.slotA j ∧
      (OnButtonStandby st s).2.slotB j = (if j = 6 then none else s.slotB j) ∧
      (OnButtonStandby st s).1 = (if st then 44 else 45)) := by
  constructor
  · intro s p a b j
    by_cases h19 : 19 < p
    · left; left; simp [applyFrame, h19]
    · have hA := applyFrame_slotA s p a b h19
      have hB := applyFrame_slotB s p a b h19
      by_cases hjp : j = p
      · subst hjp; left; right
        rw [hA, hB]
        simp [Function.update_apply]
      · by_cases h910 : p = 9 ∨ p = 10
        · by_cases hj6 : j = 6
          · subst hj6
            right
            refine ⟨rfl, h910, ?_, ?_⟩
            · rw [hA]; simp [Function.update_apply, hjp]
            · rw [hB, if_pos h910]; simp [Function.update_apply, hjp]
          · left; left
            constructor
            · rw [hA]; simp [Function.update_apply, hjp]
            · rw [hB, if_pos h910]; simp [Function.update_apply, hjp, hj6]
        · left; left
          constructor
          · rw [hA]; simp [Function.update_apply, hjp]
          · rw [hB, if_neg h910]; simp [Function.update_apply, hjp]
  · intro st s j
    refine ⟨rfl, ?_, rfl⟩
    simp [OnButtonStandby, Function.update_apply]

/-- Claim C6: the SWR is derived only when forward power is at least
2.0 W and `param2[6]` is present; the derived value is
`(1 + rho) / (1 - rho)` with `rho = sqrt(code / 256)`, clamped to at most
99.9; code 0 with sufficient power gives exactly 1; and power below 2.0 W
reports no value (unavailable) for every code. -/
theorem c6_swr_formula :
    ∀ (p : ℚ) (c : Nat),
    deriveSWR p none = none ∧
    (p < 2 → deriveSWR p (some c) = none) ∧
    (2 ≤ p → ∃ r, deriveSWR p (some c) = some r ∧ r ≤ 99.9 ∧
      ((1 + Real.sqrt ((c : ℝ) / 256)) / (1 - Real.sqrt ((c : ℝ) / 256)) ≤ 99.9 →
        r = (1 + Real.sqrt ((c : ℝ) / 256)) / (1 - Real.sqrt ((c : ℝ) / 256)))) ∧
    (2 ≤ p → deriveSWR p (some 0) = some 1) := by
  intro p c
  refine ⟨rfl, ?_, ?_, ?_⟩
  · intro hlt
    simp [deriveSWR, not_le.mpr hlt]
  · intro hge
    refine ⟨swrOfCode c, by simp [deriveSWR, hge], ?_, ?_⟩
    · simp only [swrOfCode]
      split_ifs with h
      · norm_num
      · exact le_of_not_lt h
    · intro hle
      simp only [swrOfCode]
      rw [if_neg (not_lt.mpr hle)]
  · intro hge
    simp [deriveSWR, hge, swrOfCode]
    norm_num [Real.sqrt_zero]

/-- Claim C6, witness: at 1 W the SWR is unavailable even with a code
present, and at 3 W the zero code yields exactly 1. -/
theorem c6_swr_formula_witness :
    deriveSWR 1 (some 5) = none ∧ deriveSWR 3 (some 0) = some 1 :=
  ⟨(c6_swr_formula 1 5).2.1 (by norm_num), (c6_swr_formula 3 0).2.2.2 (by norm_num)⟩

/-- Claim C7: a frame whose index exceeds 19 leaves the device state
completely unchanged, and applying any frame preserves the invariant that
no index above 19 holds a stored value. -/
theorem c7_out_of_range_noop :
    (∀ s p a b, 19 < p → applyFrame s p a b = s) ∧
    (∀ s p a b, validIdx s → validIdx (applyFrame s p a b)) := by
  constructor
  · intro s p a b h
    simp [applyFrame, h]
  · intro s p a b hv j hj
    by_cases h19 : 19 < p
    · simp [applyFrame, h19]
      exact hv j hj
    · have hjp : j ≠ p := by omega
      have hj6 : j ≠ 6 := by omega
      rw [applyFrame_slotA s p a b h19, applyFrame_slotB s p a b h19]
      constructor
      · simp [Function.update_apply, hjp]
        exact (hv j hj).1
      · split_ifs with h910 <;> simp [Function.update_apply, hjp, hj6] <;>
          exact (hv j hj).2

/-- Claim C7, witness: the out-of-range frame `(20, 1, 2)` is a no-op on
the initial state, and applying `(5, 1, 2)` keeps all indices above 19
empty. -/
theorem c7_out_of_range_noop_witness :
    applyFrame initialState 20 1 2 = initialState ∧
    validIdx (applyFrame initialState 5 1 2) :=
  ⟨c7_out_of_range_noop.1 initialState 20 1 2 (by norm_num),
   c7_out_of_range_noop.2 initialState 5 1 2 (fun _ _ => ⟨rfl, rfl⟩)⟩

/-- Claim C8: applying the same frame twice yields the same state as
applying it once, for every triple; in particular the index-9/10
invalidation is a pure overwrite of `param2[6]` to unset. -/
theorem c8_apply_idempotent :
    ∀ s p a b,
    applyFrame (applyFrame s p a b) p a b = applyFrame s p a b ∧
    (applyFrame s 9 a b).slotB 6 = none ∧
    (applyFrame s 10 a b).slotB 6 = none := by
  intro s p a b
  refine ⟨?_, ?_, ?_⟩
  · by_cases h19 : 19 < p
    · simp [applyFrame, h19]
    · refine DeviceState.ext ?_ ?_ ?_ ?_
      · rw [applyFrame_slotA _ _ _ _ h19, applyFrame_slotA _ _ _ _ h19,
            Function.update_idem]
      · rw [applyFrame_slotB _ _ _ _ h19, applyFrame_slotB _ _ _ _ h19]
        by_cases h910 : p = 9 ∨ p = 10
        · have hp6 : p ≠ 6 := by rcases h910 with h | h <;> omega
          simp only [if_pos h910]
          funext j
          simp only [Function.update_apply]
          split_ifs <;> simp_all
        · simp only [if_neg h910, Function.update_idem]
      · rw [applyFrame_isStandby _ _ _ _ h19, applyFrame_isStandby _ _ _ _ h19]
        split_ifs <;> rfl
      · rw [applyFrame_tuneStatus _ _ _ _ h19, applyFrame_tuneStatus _ _ _ _ h19]
        split_ifs <;> rfl
  · rw [applyFrame_slotB s 9 a b (by norm_num), if_pos (Or.inl rfl)]
    simp [Function.update_apply]
  · rw [applyFrame_slotB s 10 a b (by norm_num), if_pos (Or.inr rfl)]
    simp [Function.update_apply]

/-- Claim C9: threshold button `k` encodes to command byte `50 + k`, and a
device state reporting `param1[16] = k` displays the `k`-th element of the
fixed threshold list — the round trip returns the button's own value. -/
theorem c9_threshold_round_trip :
    ∀ k, k ≤ 6 → OnButtonSwr k = 50 + k ∧
    ∀ s, s.slotA 16 = some k →
      thresholdFor s = Except.ok (swrThresholds.getD k 0) := by
  intro k hk
  refine ⟨by simp [OnButtonSwr, Nat.add_comm], ?_⟩
  intro s hs
  interval_cases k <;> simp [thresholdFor, reqA, hs, swrThresholds, ebind_ok]

/-- Claim C9, witness: button index 2 encodes to command 52 and a state
reporting index 2 displays 1.5. -/
theorem c9_threshold_round_trip_witness :
    OnButtonSwr 2 = 50 + 2 ∧
    thresholdFor s16state = Except.ok (swrThresholds.getD 2 0) :=
  ⟨(c9_threshold_round_trip 2 (by norm_num)).1,
   (c9_threshold_round_trip 2 (by norm_num)).2 s16state (by decide)⟩

/-- Claim C10, counterexample to the claim as stated: the refresh succeeds
on `sFull` even though parameter index 4 is unset (an unset antenna slot
is simply displayed as antenna 1), and the Running tick's command
selection succeeds on the empty initial state even though no 13/14 frame
has been received (because `param2[6]` is unset, the tick only requests a
full update). -/
theorem c10_counterexample :
    exceptOk (NewData sFull) = true ∧ sFull.slotA 4 = none ∧
    exceptOk (runningCommand false 0 initialState) = true ∧
    initialState.isStandby = none := by decide

/-- Claim C10, amended: whenever the refresh (`NewData`) completes without
an exception, a frame with index 13 or 14 had been received (the standby
flag is defined) and parameter indices 1, 2, 5, 7, 16 and 18 are set (the
16-bit pairs 5, 7, 18 in both slots) with `param1[16]` at most 6; whenever
the Running tick's command selection completes with `param2[6]` set, the
standby flag is defined; and on the empty initial device state the refresh
fails with an exception instead of reporting unavailable placeholders. -/
theorem c10_refresh_preconditions :
    (∀ s, exceptOk (NewData s) = true →
      s.isStandby ≠ none ∧ s.slotA 1 ≠ none ∧ s.slotA 2 ≠ none ∧
      s.slotA 5 ≠ none ∧ s.slotB 5 ≠ none ∧ s.slotA 18 ≠ none ∧
      s.slotB 18 ≠ none ∧ s.slotA 7 ≠ none ∧ s.slotB 7 ≠ none ∧
      (∃ k, s.slotA 16 = some k ∧ k ≤ 6)) ∧
    (∀ (el : Bool) (auto : Nat) (s : DeviceState), s.slotB 6 ≠ none →
      exceptOk (runningCommand el auto s) = true → s.isStandby ≠ none) ∧
    exceptOk (NewData initialState) = false := by
  refine ⟨?_, ?_, by decide⟩
  · intro s h
    obtain ⟨d, hd⟩ := (exceptOk_iff _).mp h
    unfold NewData at hd
    obtain ⟨p1, hp1, hd⟩ := exceptBind_ok hd
    obtain ⟨p2, hp2, hd⟩ := exceptBind_ok hd
    obtain ⟨st, hst, hd⟩ := exceptBind_ok hd
    obtain ⟨th, hth, hd⟩ := exceptBind_ok hd
    obtain ⟨fr, hfr, hd⟩ := exceptBind_ok hd
    obtain ⟨i1, hi1, hd⟩ := exceptBind_ok hd
    obtain ⟨i2, hi2, hd⟩ := exceptBind_ok hd
    exact ⟨by simp [reqStandby_ok hst], by simp [reqA_ok hi1],
      by simp [reqA_ok hi2], (pairWatts_ok hp1).1, (pairWatts_ok hp1).2,
      (pairWatts_ok hp2).1, (pairWatts_ok hp2).2, (deriveFreq_ok hfr).1,
      (deriveFreq_ok hfr).2, thresholdFor_ok hth⟩
  · intro el auto s h6 hok
    cases hst : s.isStandby with
    | none => simp [runningCommand, h6, hst, exceptOk] at hok
    | some v => simp [hst]

/-- Claim C10, witness: the amended theorem applied to `sFull`, on which
the refresh succeeds, and to `s6state`, on which the tick's command
selection succeeds with `param2[6]` set. -/
theorem c10_refresh_preconditions_witness :
    (sFull.isStandby ≠ none ∧ sFull.slotA 1 ≠ none ∧ sFull.slotA 2 ≠ none ∧
     sFull.slotA 5 ≠ none ∧ sFull.slotB 5 ≠ none ∧ sFull.slotA 18 ≠ none ∧
     sFull.slotB 18 ≠ none ∧ sFull.slotA 7 ≠ none ∧ sFull.slotB 7 ≠ none ∧
     (∃ k, sFull.slotA 16 = some k ∧ k ≤ 6)) ∧
    s6state.isStandby ≠ none :=
  ⟨c10_refresh_preconditions.1 sFull (by decide),
   c10_refresh_preconditions.2.1 false 0 s6state (by decide) (by decide)⟩

end AT200PC
